import Mathlib

/-!
Verification development for the node-live-transcription starter.

The repository is a Node.js WebSocket proxy between a browser client and the
Deepgram live speech-to-text API (src/server.js), plus an SDK-based variant
(an unnamed source file).  This file gives a shallow embedding of the pieces
the specification talks about: JWT session tokens, sub-protocol validation at
upgrade time, per-direction message forwarding, close/error propagation
between the paired sockets, query-parameter derivation with defaults, startup
environment checks, and graceful shutdown.
-/

namespace NodeLiveTranscription

/-! ## Session tokens (jsonwebtoken model)

src/server.js issues JWTs via jwt.sign with payload iat = floor(now/1000) and
expiresIn = JWT_EXPIRY = one hour, signed with SESSION_SECRET.  jwt.verify
checks the HMAC signature and rejects when the clock timestamp has reached
the exp claim.  The HMAC itself is an external crypto primitive; it is
modelled as the idealised (injective) pairing of secret and payload. -/

structure JwtPayload where
  iat : Nat
  exp : Nat
deriving DecidableEq

structure Jwt where
  payload : JwtPayload
  sig : Nat × JwtPayload
deriving DecidableEq

/-- Idealised HMAC: the signature of a payload under a secret. -/
def hmacSign (secret : Nat) (p : JwtPayload) : Nat × JwtPayload :=
  (secret, p)

/-- JWT_EXPIRY = one hour, in seconds. -/
def JWT_EXPIRY_SECONDS : Nat := 3600

/-- jwt.sign with an iat claim and expiresIn one hour (src/server.js lines 93-97). -/
def jwtSign (secret nowSec : Nat) : Jwt :=
  let p : JwtPayload := ⟨nowSec, nowSec + JWT_EXPIRY_SECONDS⟩
  ⟨p, hmacSign secret p⟩

/-- jwt.verify: the signature must match and the token must be unexpired
(jsonwebtoken raises TokenExpiredError once the clock reaches exp). -/
def jwtVerify (secret nowSec : Nat) (t : Jwt) : Bool :=
  decide (t.sig = hmacSign secret t.payload) && decide (nowSec < t.payload.exp)

/-- GET /api/session handler: issues a fresh signed token (src/server.js lines 92-99). -/
def issueSession (secret nowSec : Nat) : Jwt :=
  jwtSign secret nowSec

/-! ## Sub-protocol validation at WebSocket upgrade

A sub-protocol entry offered by the client is either a string of the form
access_token.<suffix> - carrying a parseable JWT, or a malformed suffix
(modelled as none, on which jwt.verify throws) - or any other string. -/

inductive ProtoEntry where
  | accessToken (tok : Option Jwt)
  | other (s : String)
deriving DecidableEq

/-- p.startsWith "access_token." on the string form of an entry. -/
def ProtoEntry.startsWithAccessToken : ProtoEntry → Bool
  | .accessToken _ => true
  | .other _ => false

/-- An entry that carries a token which verifies under the secret at the
given time. -/
def isValidTokenProto (secret nowSec : Nat) : ProtoEntry → Bool
  | .accessToken (some t) => jwtVerify secret nowSec t
  | .accessToken none => false
  | .other _ => false

/-- validateWsToken (src/server.js lines 52-64): missing header returns null;
otherwise take the FIRST entry with the access_token. prefix-convention, strip
it, and jwt.verify the remainder, returning the whole matching entry on
success and null on any verification failure. -/
def validateWsToken (secret nowSec : Nat) :
    Option (List ProtoEntry) → Option ProtoEntry
  | none => none
  | some list =>
    match list.find? ProtoEntry.startsWithAccessToken with
    | none => none
    | some tokenProto =>
      match tokenProto with
      | .accessToken (some t) =>
        if jwtVerify secret nowSec t then some tokenProto else none
      | _ => none

/-- handleProtocols (src/server.js lines 70-76): echo the first offered
entry that starts with access_token., else refuse the sub-protocol. -/
def handleProtocols (protocols : List ProtoEntry) : Option ProtoEntry :=
  protocols.find? ProtoEntry.startsWithAccessToken

/-- Outcome of the HTTP upgrade handler. -/
inductive UpgradeResult where
  | upgraded (echoedProto : Option ProtoEntry)
  | reject401
  | destroySocket
deriving DecidableEq

/-- The live-transcription WebSocket path. -/
def livePath : String := "/api/live-transcription"

/-- server.on upgrade (src/server.js lines 230-256), combined with the
connection handler adding the accepted client socket to the registry
(line 133).  On the live path, validateWsToken gates the upgrade: failure
writes 401 and destroys the raw socket, leaving the registry unchanged;
success upgrades, echoing the sub-protocol chosen by handleProtocols, and
registers the new client.  Any other path destroys the socket. -/
def onUpgrade (secret nowSec : Nat) (pathname : String)
    (protocols : Option (List ProtoEntry)) (clientId : Nat)
    (registry : List Nat) : UpgradeResult × List Nat :=
  if pathname = livePath then
    match validateWsToken secret nowSec protocols with
    | none => (.reject401, registry)
    | some _ =>
      (.upgraded (handleProtocols (protocols.getD [])), clientId :: registry)
  else
    (.destroySocket, registry)

/-! ## Helper lemmas about validateWsToken -/

theorem validateWsToken_eq_of_find (secret nowSec : Nat)
    (ps : List ProtoEntry) (p : ProtoEntry)
    (hfind : ps.find? ProtoEntry.startsWithAccessToken = some p) :
    validateWsToken secret nowSec (some ps) =
      if isValidTokenProto secret nowSec p then some p else none := by
  show (match ps.find? ProtoEntry.startsWithAccessToken with
    | none => none
    | some tokenProto =>
      match tokenProto with
      | ProtoEntry.accessToken (some t) =>
        if jwtVerify secret nowSec t then some tokenProto else none
      | _ => none) =
    if isValidTokenProto secret nowSec p then some p else none
  rw [hfind]
  cases p with
  | accessToken tok =>
    cases tok with
    | none => simp [isValidTokenProto]
    | some t => simp [isValidTokenProto]
  | other s => simp [isValidTokenProto]

/-! ## The relay: per-direction message forwarding

WebSocket ready states as in the ws library (CONNECTING = 0, OPEN = 1,
CLOSING = 2, CLOSED = 3). -/

inductive ReadyState where
  | CONNECTING
  | OPEN
  | CLOSING
  | CLOSED
deriving DecidableEq

/-- A message received on a socket: payload bytes plus the binary flag. -/
structure WsMessage where
  data : List Nat
  isBinary : Bool
deriving DecidableEq

/-- A frame sent on a socket: ws send(data, binary flag). -/
structure SentFrame where
  data : List Nat
  binary : Bool
deriving DecidableEq

/-- deepgramWs message handler (src/server.js lines 166-174): increment the
upstream-to-client counter, then send the data verbatim (binary flag kept)
to the client socket if and only if it is currently OPEN; otherwise nothing
further happens (no buffering). -/
def deepgramWsOnMessage (clientState : ReadyState) (deepgramMessageCount : Nat)
    (m : WsMessage) : Nat × Option SentFrame :=
  (deepgramMessageCount + 1,
   if clientState = .OPEN then some ⟨m.data, m.isBinary⟩ else none)

/-- clientWs message handler (src/server.js lines 177-185): increment the
client-to-upstream counter, then send the data verbatim (binary flag kept)
to the Deepgram socket if and only if it is currently OPEN; otherwise
nothing further happens (no buffering). -/
def clientWsOnMessage (deepgramState : ReadyState) (clientMessageCount : Nat)
    (m : WsMessage) : Nat × Option SentFrame :=
  (clientMessageCount + 1,
   if deepgramState = .OPEN then some ⟨m.data, m.isBinary⟩ else none)

/-- One received message together with the ready state the paired socket
has at the moment the handler runs. -/
structure MsgEvent where
  msg : WsMessage
  pairedState : ReadyState
deriving DecidableEq

/-- Run a per-message handler over a sequence of received messages, in
arrival order (the Node event loop invokes the handler once per message, in
order), collecting the frames sent to the paired socket. -/
def relayRun (handler : ReadyState → Nat → WsMessage → Nat × Option SentFrame) :
    Nat → List MsgEvent → Nat × List SentFrame
  | count, [] => (count, [])
  | count, e :: es =>
    let step := handler e.pairedState count e.msg
    let rest := relayRun handler step.1 es
    (rest.1, step.2.toList ++ rest.2)

/-- The frames a direction forwards: exactly the messages received while the
paired socket was OPEN, in order, bytes and binary flag unchanged. -/
def forwardedFrames (events : List MsgEvent) : List SentFrame :=
  (events.filter (fun e => e.pairedState = .OPEN)).map
    (fun e => ⟨e.msg.data, e.msg.isBinary⟩)

theorem relayRun_sent
    (handler : ReadyState → Nat → WsMessage → Nat × Option SentFrame)
    (hspec : ∀ s c m, (handler s c m).2 =
      if s = .OPEN then some ⟨m.data, m.isBinary⟩ else none)
    (count : Nat) (events : List MsgEvent) :
    (relayRun handler count events).2 = forwardedFrames events := by
  induction events generalizing count with
  | nil => rfl
  | cons e es ih =>
    show (handler e.pairedState count e.msg).2.toList ++
        (relayRun handler (handler e.pairedState count e.msg).1 es).2 =
      forwardedFrames (e :: es)
    rw [ih, hspec]
    by_cases h : e.pairedState = .OPEN
    · simp [forwardedFrames, h]
    · simp [forwardedFrames, h]

/-! ## Close and error propagation between the paired sockets -/

/-- A close issued on a socket: ws close(code, reason). -/
structure CloseCmd where
  code : Nat
  reason : String
deriving DecidableEq

/-- deepgramWs close handler (src/server.js lines 201-206): if the client
socket is OPEN, close it with the code and reason received from Deepgram. -/
def onDeepgramClose (clientState : ReadyState) (code : Nat) (reason : String) :
    Option CloseCmd :=
  if clientState = .OPEN then some ⟨code, reason⟩ else none

/-- clientWs close handler (src/server.js lines 209-215): if the Deepgram
socket is OPEN, close it with the fixed code 1000 and reason
Client disconnected, regardless of the code the client closed with. -/
def onClientClose (deepgramState : ReadyState) (_code : Nat) (_reason : String) :
    Option CloseCmd :=
  if deepgramState = .OPEN then some ⟨1000, "Client disconnected"⟩ else none

/-- deepgramWs error handler (src/server.js lines 193-198): if the client
socket is OPEN, close it with 1011. -/
def onDeepgramError (clientState : ReadyState) : Option CloseCmd :=
  if clientState = .OPEN then some ⟨1011, "Deepgram connection error"⟩ else none

/-- clientWs error handler (src/server.js lines 218-223): if the Deepgram
socket is OPEN, close it with 1011. -/
def onClientError (deepgramState : ReadyState) : Option CloseCmd :=
  if deepgramState = .OPEN then some ⟨1011, "Client error"⟩ else none

/-- Effect of an issued close on the target socket: calling ws close moves
an OPEN socket to CLOSING; no command leaves the state unchanged. -/
def applyClose (s : ReadyState) : Option CloseCmd → ReadyState
  | some _ => .CLOSING
  | none => s

/-! ## Structured error events to the client

The SDK variant sends JSON error objects of the shape
error: (type, code, message, optional details) before closing. -/

structure ErrorEvent where
  etype : String
  code : String
  message : String
  hasDetails : Bool
deriving DecidableEq

/-- An action the server performs on the client socket. -/
inductive ClientAction where
  | sendError (e : ErrorEvent)
  | sendEvent (kind : String)
  | closeSocket (code : Nat) (reason : String)
  | registryDelete
deriving DecidableEq

def ClientAction.isSendError : ClientAction → Bool
  | .sendError _ => true
  | _ => false

def ClientAction.isClose : ClientAction → Bool
  | .closeSocket _ _ => true
  | _ => false

/-- Whenever the action list closes the client socket, a structured error
event was sent strictly earlier. -/
def errorSentBeforeClose (as : List ClientAction) : Bool :=
  match as.findIdx? ClientAction.isClose with
  | none => true
  | some jc =>
    match as.findIdx? ClientAction.isSendError with
    | none => false
    | some je => decide (je < jc)

/-- The ConnectionError event of the SDK variant (unnamed source, lines
87-97): type ConnectionError, code DEEPGRAM_CONNECTION_FAILED, a human
message, details with reason and hint. -/
def sdkConnectionErrorEvent : ErrorEvent :=
  ⟨"ConnectionError", "DEEPGRAM_CONNECTION_FAILED",
   "Failed to establish connection to Deepgram. Please check your API key.",
   true⟩

/-- SDK variant, failure to create the Deepgram connection (unnamed source,
lines 83-103): send the structured error event, then close the client socket
with 1011, then remove it from the registry. -/
def sdkOnCreateConnectionFailure : List ClientAction :=
  [.sendError sdkConnectionErrorEvent,
   .closeSocket 1011 "Deepgram connection failed",
   .registryDelete]

/-- Proxy variant: what happens on the client socket when the Deepgram
socket errors (src/server.js lines 193-198) - a bare close with 1011, no
structured event is sent. -/
def proxyOnDeepgramErrorActions (clientState : ReadyState) : List ClientAction :=
  if clientState = .OPEN
  then [.closeSocket 1011 "Deepgram connection error"]
  else []

/-! ## Query-parameter derivation and the upstream URL -/

/-- CONFIG.deepgramSttUrl (src/server.js line 34). -/
def deepgramSttUrl : String := "wss://api.deepgram.com/v1/listen"

/-- url.searchParams.get: the value of the first occurrence of the name in
the query string, or none when absent. -/
def searchParamsGet (q : List (String × String)) (name : String) :
    Option String :=
  (q.find? (fun kv => kv.1 = name)).map (fun kv => kv.2)

/-- The JavaScript pattern (get(name) or-else default): null and the empty
string are both falsy, so a present-but-empty value also falls back. -/
def jsOrDefault (v : Option String) (dflt : String) : String :=
  match v with
  | some s => if s = "" then dflt else s
  | none => dflt

structure DgParams where
  model : String
  language : String
  smart_format : String
  encoding : String
  sample_rate : String
  channels : String
deriving DecidableEq

/-- Parameter derivation in the connection handler (src/server.js lines
136-142): each of the six values is read from the query string with its
documented default. -/
def deriveDgParams (q : List (String × String)) : DgParams :=
  { model := jsOrDefault (searchParamsGet q "model") "nova-3"
    language := jsOrDefault (searchParamsGet q "language") "en"
    smart_format := jsOrDefault (searchParamsGet q "smart_format") "true"
    encoding := jsOrDefault (searchParamsGet q "encoding") "linear16"
    sample_rate := jsOrDefault (searchParamsGet q "sample_rate") "16000"
    channels := jsOrDefault (searchParamsGet q "channels") "1" }

/-- The query part of the upstream URL (src/server.js lines 145-151): it is
built fresh from CONFIG.deepgramSttUrl and carries exactly the six derived
values. -/
def buildDeepgramQuery (p : DgParams) : List (String × String) :=
  [("model", p.model), ("language", p.language),
   ("smart_format", p.smart_format), ("encoding", p.encoding),
   ("sample_rate", p.sample_rate), ("channels", p.channels)]

/-! ## Startup environment checks -/

/-- The parts of the process environment the startup path reads. -/
structure Env where
  deepgramApiKey : Option String
  sessionSecret : Option Nat
deriving DecidableEq

inductive StartupResult where
  | fatalExit (exitCode : Nat)
  | running (apiKey : String) (signingSecret : Nat)
deriving DecidableEq

def StartupResult.isFatal : StartupResult → Bool
  | .fatalExit _ => true
  | .running _ _ => false

/-- Startup (src/server.js lines 25-44): a missing DEEPGRAM_API_KEY is a
fatal process.exit(1); SESSION_SECRET falls back to freshly generated random
bytes when absent from the environment, and startup continues. -/
def startServer (env : Env) (randomSecret : Nat) : StartupResult :=
  match env.deepgramApiKey with
  | none => .fatalExit 1
  | some key => .running key (env.sessionSecret.getD randomSecret)

/-! ## Graceful shutdown -/

inductive ShutdownAction where
  | stopNewUpgrades
  | closeClient (id : Nat) (code : Nat) (reason : String)
  | closeHttpServer
  | armForceExit (delayMs : Nat) (exitCode : Nat)
deriving DecidableEq

/-- gracefulShutdown (src/server.js lines 261-291): wss.close stops new
upgrades, every registered client socket is closed with 1001 and the reason
Server shutting down, the HTTP listener is closed, and a 10000 ms timer is
armed that force-exits the process with code 1 if teardown has not finished
by then. -/
def gracefulShutdown (registry : List Nat) : List ShutdownAction :=
  ShutdownAction.stopNewUpgrades ::
    (registry.map (fun id => ShutdownAction.closeClient id 1001 "Server shutting down") ++
      [ShutdownAction.closeHttpServer, ShutdownAction.armForceExit 10000 1])

/-- The process-level triggers wired to gracefulShutdown
(src/server.js lines 294-306). -/
inductive ShutdownTrigger where
  | SIGTERM
  | SIGINT
  | uncaughtException
  | unhandledRejection
deriving DecidableEq

/-- Every trigger, signals and uncaught runtime errors alike, runs the same
shutdown routine. -/
def handleTrigger (_t : ShutdownTrigger) (registry : List Nat) :
    List ShutdownAction :=
  gracefulShutdown registry

/-! ## Claim theorems -/

/-- C1: In the ACTIVE steady state, each direction of the relay forwards
every received message verbatim (bytes and binary flag unchanged) to the
paired socket exactly when that socket is currently OPEN, and over any
sequence of received messages the paired socket receives exactly the
forwarded subsequence in arrival order (FIFO per direction): the frames sent
client-to-upstream and upstream-to-client are precisely the OPEN-state
messages, in order, unmodified. -/
theorem C1_fifo_forwarding (clientEvents upstreamEvents : List MsgEvent)
    (c0 d0 : Nat) :
    (relayRun clientWsOnMessage c0 clientEvents).2 =
      forwardedFrames clientEvents ∧
    (relayRun deepgramWsOnMessage d0 upstreamEvents).2 =
      forwardedFrames upstreamEvents :=
  ⟨relayRun_sent clientWsOnMessage (fun _ _ _ => rfl) c0 clientEvents,
   relayRun_sent deepgramWsOnMessage (fun _ _ _ => rfl) d0 upstreamEvents⟩

/-- C9: A message received while the paired socket is not OPEN (CONNECTING,
CLOSING or CLOSED) is silently dropped in both directions: the handler sends
nothing, yet still increments the per-direction message counter; and a
dropped message never reappears later in the forwarded stream (the output of
the rest of the trace is unchanged), so nothing is buffered, queued or
retried - in particular audio sent while the upstream socket is still
CONNECTING is lost. -/
theorem C9_silent_drop (count : Nat) (m : WsMessage) (es : List MsgEvent) :
    clientWsOnMessage .CONNECTING count m = (count + 1, none) ∧
    clientWsOnMessage .CLOSING count m = (count + 1, none) ∧
    clientWsOnMessage .CLOSED count m = (count + 1, none) ∧
    deepgramWsOnMessage .CONNECTING count m = (count + 1, none) ∧
    deepgramWsOnMessage .CLOSING count m = (count + 1, none) ∧
    deepgramWsOnMessage .CLOSED count m = (count + 1, none) ∧
    (relayRun clientWsOnMessage count (⟨m, .CONNECTING⟩ :: es)).2 =
      (relayRun clientWsOnMessage (count + 1) es).2 ∧
    (relayRun deepgramWsOnMessage count (⟨m, .CONNECTING⟩ :: es)).2 =
      (relayRun deepgramWsOnMessage (count + 1) es).2 :=
  ⟨rfl, rfl, rfl, rfl, rfl, rfl, rfl, rfl⟩

/-- C2 counterexample: the claim says the surviving socket is closed with
the code and reason mirrored from the side that closed first, falling back
to a generic code only where mirroring is impossible.  But when the client
closes with code 4000 and reason bye (a perfectly mirrorable close), the
upstream socket is closed with the fixed pair 1000 / Client disconnected
instead of the mirrored one. -/
theorem C2_counterexample :
    onClientClose ReadyState.OPEN 4000 "bye" =
      some ⟨1000, "Client disconnected"⟩ ∧
    onClientClose ReadyState.OPEN 4000 "bye" ≠ some ⟨4000, "bye"⟩ := by
  decide

/-- C2 (amended): whenever either socket of the pair closes or errors while
the paired socket is OPEN, the paired socket is closed in response - the
client socket with the code and reason mirrored from the upstream close, the
upstream socket with the fixed pair 1000 / Client disconnected on client
close, and either with 1011 on an error - and after the handler runs, a
socket whose pair has closed or errored is never left OPEN. -/
theorem C2_close_propagation (cs ds : ReadyState) (code : Nat)
    (reason : String) :
    onDeepgramClose .OPEN code reason = some ⟨code, reason⟩ ∧
    onClientClose .OPEN code reason = some ⟨1000, "Client disconnected"⟩ ∧
    onDeepgramError .OPEN = some ⟨1011, "Deepgram connection error"⟩ ∧
    onClientError .OPEN = some ⟨1011, "Client error"⟩ ∧
    applyClose cs (onDeepgramClose cs code reason) ≠ ReadyState.OPEN ∧
    applyClose ds (onClientClose ds code reason) ≠ ReadyState.OPEN ∧
    applyClose cs (onDeepgramError cs) ≠ ReadyState.OPEN ∧
    applyClose ds (onClientError ds) ≠ ReadyState.OPEN := by
  refine ⟨rfl, rfl, rfl, rfl, ?_, ?_, ?_, ?_⟩
  · cases cs <;> simp [onDeepgramClose, applyClose]
  · cases ds <;> simp [onClientClose, applyClose]
  · cases cs <;> simp [onDeepgramError, applyClose]
  · cases ds <;> simp [onClientError, applyClose]

/-- C5: every token produced by the session issuer verifies at any time
strictly before its expiry and is rejected at any time after it, and any
token whose signature does not verify under the signing secret is rejected
regardless of the expiry it claims. -/
theorem C5_token_validity (secret issuedAt t : Nat) (tok : Jwt) :
    (t < (issueSession secret issuedAt).payload.exp →
      jwtVerify secret t (issueSession secret issuedAt) = true) ∧
    ((issueSession secret issuedAt).payload.exp < t →
      jwtVerify secret t (issueSession secret issuedAt) = false) ∧
    (tok.sig ≠ hmacSign secret tok.payload → jwtVerify secret t tok = false) := by
  refine ⟨?_, ?_, ?_⟩
  · intro h
    simp only [issueSession, jwtSign, jwtVerify] at h ⊢
    simp [h]
  · intro h
    simp only [issueSession, jwtSign] at h
    have hlt : ¬ t < issuedAt + JWT_EXPIRY_SECONDS := by omega
    simp [issueSession, jwtSign, jwtVerify, hlt]
  · intro h
    simp [jwtVerify, h]

/-- C5 witness: with secret 5 and issue time 100, the issued token verifies
at time 200 and is rejected at time 9999; a token re-signed under secret 6
is rejected under secret 5 even though it claims a far-future expiry. -/
theorem C5_token_validity_witness :
    jwtVerify 5 200 (issueSession 5 100) = true ∧
    jwtVerify 5 9999 (issueSession 5 100) = false ∧
    jwtVerify 5 200 ⟨⟨100, 999999⟩, (6, ⟨100, 999999⟩)⟩ = false :=
  ⟨(C5_token_validity 5 100 200 ⟨⟨100, 999999⟩, (6, ⟨100, 999999⟩)⟩).1
      (by decide),
   (C5_token_validity 5 100 9999 ⟨⟨100, 999999⟩, (6, ⟨100, 999999⟩)⟩).2.1
      (by decide),
   (C5_token_validity 5 100 200 ⟨⟨100, 999999⟩, (6, ⟨100, 999999⟩)⟩).2.2
      (by decide)⟩

/-- C3 counterexample: the claim says that if SOME offered sub-protocol
entry carries a valid token the upgrade proceeds.  Offer a list whose first
access_token entry is tampered and whose second carries a freshly issued
valid token: a valid entry exists, yet the upgrade is rejected with 401 and
the registry is unchanged, because only the first matching entry is ever
inspected. -/
theorem C3_counterexample :
    (∃ p ∈ [ProtoEntry.accessToken (some ⟨⟨0, 3600⟩, (8, ⟨0, 3600⟩)⟩),
            ProtoEntry.accessToken (some (jwtSign 7 0))],
        isValidTokenProto 7 1 p = true) ∧
    onUpgrade 7 1 livePath
        (some [ProtoEntry.accessToken (some ⟨⟨0, 3600⟩, (8, ⟨0, 3600⟩)⟩),
               ProtoEntry.accessToken (some (jwtSign 7 0))]) 42 [] =
      (UpgradeResult.reject401, []) := by
  decide

/-- C3 (amended): for an upgrade on the live-transcription path, if the
FIRST offered sub-protocol entry bearing the access_token prefix carries a
valid unexpired token, the upgrade proceeds, that exact entry is echoed
back, and the new client joins the registry; if the token validator finds
nothing valid (no matching entry, missing header, or a first matching entry
that fails verification) the request is answered 401 with the raw socket
destroyed and the registry unchanged. -/
theorem C3_upgrade_auth (secret nowSec clientId : Nat) (registry : List Nat)
    (ps : List ProtoEntry) :
    (∀ p, ps.find? ProtoEntry.startsWithAccessToken = some p →
      isValidTokenProto secret nowSec p = true →
      onUpgrade secret nowSec livePath (some ps) clientId registry =
        (UpgradeResult.upgraded (some p), clientId :: registry)) ∧
    (validateWsToken secret nowSec (some ps) = none →
      onUpgrade secret nowSec livePath (some ps) clientId registry =
        (UpgradeResult.reject401, registry)) ∧
    (ps.find? ProtoEntry.startsWithAccessToken = none →
      onUpgrade secret nowSec livePath (some ps) clientId registry =
        (UpgradeResult.reject401, registry)) ∧
    onUpgrade secret nowSec livePath none clientId registry =
      (UpgradeResult.reject401, registry) := by
  refine ⟨?_, ?_, ?_, rfl⟩
  · intro p hfind hval
    have h := validateWsToken_eq_of_find secret nowSec ps p hfind
    rw [hval] at h
    simp at h
    simp [onUpgrade, h, handleProtocols, hfind]
  · intro h
    simp [onUpgrade, h]
  · intro hfind
    have h : validateWsToken secret nowSec (some ps) = none := by
      show (match ps.find? ProtoEntry.startsWithAccessToken with
        | none => none
        | some tokenProto =>
          match tokenProto with
          | ProtoEntry.accessToken (some t) =>
            if jwtVerify secret nowSec t then some tokenProto else none
          | _ => none) = none
      rw [hfind]
    simp [onUpgrade, h]

/-- C3 witness: with secret 7 at time 10, offering an unrelated entry
followed by access_token with the token issued at time 0 upgrades, echoes
that entry and registers client 5; and an upgrade with no sub-protocol
header at all is rejected with the registry unchanged. -/
theorem C3_upgrade_auth_witness :
    onUpgrade 7 10 livePath
        (some [ProtoEntry.other "chat",
               ProtoEntry.accessToken (some (jwtSign 7 0))]) 5 [] =
      (UpgradeResult.upgraded
        (some (ProtoEntry.accessToken (some (jwtSign 7 0)))), [5]) ∧
    onUpgrade 7 10 livePath none 5 [] = (UpgradeResult.reject401, []) :=
  ⟨(C3_upgrade_auth 7 10 5 []
      [ProtoEntry.other "chat",
       ProtoEntry.accessToken (some (jwtSign 7 0))]).1
    (ProtoEntry.accessToken (some (jwtSign 7 0))) (by decide) (by decide),
   (C3_upgrade_auth 7 10 5 [] []).2.2.2⟩

/-- C10: token validation inspects only the first offered entry bearing the
access_token prefix: whenever that first matching entry is invalid or
expired, the upgrade is rejected with 401 and the registry is unchanged,
whatever the rest of the list contains. -/
theorem C10_first_match_gates (secret nowSec clientId : Nat)
    (registry : List Nat) (ps : List ProtoEntry) (p : ProtoEntry)
    (hfind : ps.find? ProtoEntry.startsWithAccessToken = some p)
    (hbad : isValidTokenProto secret nowSec p = false) :
    onUpgrade secret nowSec livePath (some ps) clientId registry =
      (UpgradeResult.reject401, registry) := by
  have h := validateWsToken_eq_of_find secret nowSec ps p hfind
  rw [hbad] at h
  simp at h
  simp [onUpgrade, h]

/-- C10 witness: with secret 3 at time 0, a list whose first access_token
entry is signed under secret 4 (tampered) followed by one validly issued
under secret 3 is rejected, leaving the registry [9] unchanged. -/
theorem C10_first_match_gates_witness :
    ([ProtoEntry.accessToken (some ⟨⟨0, 3600⟩, (4, ⟨0, 3600⟩)⟩),
      ProtoEntry.accessToken (some (jwtSign 3 0))].find?
        ProtoEntry.startsWithAccessToken =
      some (ProtoEntry.accessToken (some ⟨⟨0, 3600⟩, (4, ⟨0, 3600⟩)⟩))) ∧
    onUpgrade 3 0 livePath
        (some [ProtoEntry.accessToken (some ⟨⟨0, 3600⟩, (4, ⟨0, 3600⟩)⟩),
               ProtoEntry.accessToken (some (jwtSign 3 0))]) 7 [9] =
      (UpgradeResult.reject401, [9]) :=
  ⟨by decide,
   C10_first_match_gates 3 0 7 [9]
     [ProtoEntry.accessToken (some ⟨⟨0, 3600⟩, (4, ⟨0, 3600⟩)⟩),
      ProtoEntry.accessToken (some (jwtSign 3 0))]
     (ProtoEntry.accessToken (some ⟨⟨0, 3600⟩, (4, ⟨0, 3600⟩)⟩))
     (by decide) (by decide)⟩

/-- C4 counterexample: the claim says every error after the client socket is
open is surfaced as a structured JSON error event sent strictly before the
client socket is closed, never as a bare close.  In the proxy variant
(src/server.js lines 193-198) an upstream socket error, with the client
OPEN, performs exactly one action - closing the client socket with 1011 -
and no structured error event is sent at any point. -/
theorem C4_counterexample :
    proxyOnDeepgramErrorActions .OPEN =
      [ClientAction.closeSocket 1011 "Deepgram connection error"] ∧
    (∀ a ∈ proxyOnDeepgramErrorActions .OPEN, a.isSendError = false) ∧
    errorSentBeforeClose (proxyOnDeepgramErrorActions .OPEN) = false := by
  decide

/-- C4 (amended): in the SDK variant, failure to establish the upstream
link sends a structured JSON error event - type ConnectionError, a
machine-readable code, a human message and details - to the client strictly
before the client socket is closed; in the proxy variant, an upstream error
is surfaced to the client only as a close with code 1011 and a reason
string, with no structured in-band event preceding it. -/
theorem C4_error_before_close :
    errorSentBeforeClose sdkOnCreateConnectionFailure = true ∧
    sdkOnCreateConnectionFailure.head? =
      some (ClientAction.sendError sdkConnectionErrorEvent) ∧
    sdkConnectionErrorEvent.etype = "ConnectionError" ∧
    sdkConnectionErrorEvent.code = "DEEPGRAM_CONNECTION_FAILED" ∧
    sdkConnectionErrorEvent.hasDetails = true ∧
    errorSentBeforeClose (proxyOnDeepgramErrorActions .OPEN) = false ∧
    proxyOnDeepgramErrorActions .OPEN =
      [ClientAction.closeSocket 1011 "Deepgram connection error"] := by
  decide

theorem jsOrDefault_of_nonempty (o : Option String) (v dflt : String)
    (hv : v ≠ "") (ho : o = some v) : jsOrDefault o dflt = v := by
  subst ho
  simp [jsOrDefault, hv]

theorem jsOrDefault_of_falsy (o : Option String) (dflt : String)
    (ho : o = none ∨ o = some "") : jsOrDefault o dflt = dflt := by
  cases ho with
  | inl h => subst h; rfl
  | inr h => subst h; rfl

/-- C6 counterexample: the claim says each parameter is taken from the query
string whenever it is present.  A present-but-empty value is falsy in
JavaScript, so the query model= yields the default nova-3 instead of the
present empty-string value. -/
theorem C6_counterexample :
    searchParamsGet [("model", "")] "model" = some "" ∧
    (deriveDgParams [("model", "")]).model = "nova-3" := by
  decide

/-- C6 (amended): each of the six upstream parameters is taken from the
query string when present with a non-empty value and otherwise (absent or
present-but-empty, both falsy in JavaScript) set to its documented default,
with no further validation; the upstream URL query is built from exactly
these six resulting values, and derivation is total, so a missing parameter
never fails the connection. -/
theorem C6_param_defaults (q : List (String × String)) :
    (∀ v, v ≠ "" → searchParamsGet q "model" = some v →
      (deriveDgParams q).model = v) ∧
    ((searchParamsGet q "model" = none ∨ searchParamsGet q "model" = some "") →
      (deriveDgParams q).model = "nova-3") ∧
    (∀ v, v ≠ "" → searchParamsGet q "language" = some v →
      (deriveDgParams q).language = v) ∧
    ((searchParamsGet q "language" = none ∨
        searchParamsGet q "language" = some "") →
      (deriveDgParams q).language = "en") ∧
    (∀ v, v ≠ "" → searchParamsGet q "smart_format" = some v →
      (deriveDgParams q).smart_format = v) ∧
    ((searchParamsGet q "smart_format" = none ∨
        searchParamsGet q "smart_format" = some "") →
      (deriveDgParams q).smart_format = "true") ∧
    (∀ v, v ≠ "" → searchParamsGet q "encoding" = some v →
      (deriveDgParams q).encoding = v) ∧
    ((searchParamsGet q "encoding" = none ∨
        searchParamsGet q "encoding" = some "") →
      (deriveDgParams q).encoding = "linear16") ∧
    (∀ v, v ≠ "" → searchParamsGet q "sample_rate" = some v →
      (deriveDgParams q).sample_rate = v) ∧
    ((searchParamsGet q "sample_rate" = none ∨
        searchParamsGet q "sample_rate" = some "") →
      (deriveDgParams q).sample_rate = "16000") ∧
    (∀ v, v ≠ "" → searchParamsGet q "channels" = some v →
      (deriveDgParams q).channels = v) ∧
    ((searchParamsGet q "channels" = none ∨
        searchParamsGet q "channels" = some "") →
      (deriveDgParams q).channels = "1") ∧
    (buildDeepgramQuery (deriveDgParams q)).map Prod.fst =
      ["model", "language", "smart_format", "encoding", "sample_rate",
       "channels"] ∧
    (buildDeepgramQuery (deriveDgParams q)).map Prod.snd =
      [(deriveDgParams q).model, (deriveDgParams q).language,
       (deriveDgParams q).smart_format, (deriveDgParams q).encoding,
       (deriveDgParams q).sample_rate, (deriveDgParams q).channels] :=
  ⟨fun v hv h => jsOrDefault_of_nonempty _ v _ hv h,
   fun h => jsOrDefault_of_falsy _ _ h,
   fun v hv h => jsOrDefault_of_nonempty _ v _ hv h,
   fun h => jsOrDefault_of_falsy _ _ h,
   fun v hv h => jsOrDefault_of_nonempty _ v _ hv h,
   fun h => jsOrDefault_of_falsy _ _ h,
   fun v hv h => jsOrDefault_of_nonempty _ v _ hv h,
   fun h => jsOrDefault_of_falsy _ _ h,
   fun v hv h => jsOrDefault_of_nonempty _ v _ hv h,
   fun h => jsOrDefault_of_falsy _ _ h,
   fun v hv h => jsOrDefault_of_nonempty _ v _ hv h,
   fun h => jsOrDefault_of_falsy _ _ h,
   rfl, rfl⟩

/-- C6 witness: with the query model=nova-2, the model parameter is taken
from the query and the language parameter falls back to its default. -/
theorem C6_param_defaults_witness :
    (deriveDgParams [("model", "nova-2")]).model = "nova-2" ∧
    (deriveDgParams [("model", "nova-2")]).language = "en" :=
  ⟨(C6_param_defaults [("model", "nova-2")]).1 "nova-2" (by decide) (by decide),
   (C6_param_defaults [("model", "nova-2")]).2.2.2.1 (Or.inl (by decide))⟩

/-- C7 counterexample: the claim says a missing token-signing secret aborts
startup fatally.  With the API key present and SESSION_SECRET absent from
the environment, startup succeeds, substituting freshly generated random
bytes as the signing secret. -/
theorem C7_counterexample :
    startServer ⟨some "key", none⟩ 99 = StartupResult.running "key" 99 ∧
    (startServer ⟨some "key", none⟩ 99).isFatal = false := by
  decide

/-- C7 (amended): a missing upstream API key is a fatal startup error
(process exit 1); a missing token-signing secret is NOT fatal - startup
continues with a freshly generated random secret substituted - and token
issuance is total and always yields a token that verifies under the secret
in use at its issue time. -/
theorem C7_startup_policy (apiKey : String) (s rnd nowSec : Nat)
    (secretOpt : Option Nat) :
    startServer ⟨none, secretOpt⟩ rnd = StartupResult.fatalExit 1 ∧
    startServer ⟨some apiKey, none⟩ rnd = StartupResult.running apiKey rnd ∧
    startServer ⟨some apiKey, some s⟩ rnd = StartupResult.running apiKey s ∧
    jwtVerify s nowSec (issueSession s nowSec) = true := by
  refine ⟨rfl, rfl, rfl, ?_⟩
  simp [jwtVerify, issueSession, jwtSign, JWT_EXPIRY_SECONDS]

/-- C8: every termination trigger - SIGTERM, SIGINT, and uncaught runtime
errors treated alike - runs the same shutdown routine, which first stops
accepting new upgrades, closes every client socket in the registry with
close code 1001 (never the normal-closure code 1000) and reason Server
shutting down, then closes the listening socket, with a 10000 ms timer
armed to terminate the process forcibly if teardown does not finish. -/
theorem C8_graceful_shutdown (t : ShutdownTrigger) (registry : List Nat) :
    handleTrigger t registry = gracefulShutdown registry ∧
    (gracefulShutdown registry).head? = some ShutdownAction.stopNewUpgrades ∧
    (∀ id ∈ registry,
      ShutdownAction.closeClient id 1001 "Server shutting down" ∈
        gracefulShutdown registry) ∧
    (∀ id code reason,
      ShutdownAction.closeClient id code reason ∈ gracefulShutdown registry →
        code = 1001 ∧ code ≠ 1000 ∧ reason = "Server shutting down") ∧
    gracefulShutdown registry =
      ShutdownAction.stopNewUpgrades ::
        (registry.map (fun id =>
            ShutdownAction.closeClient id 1001 "Server shutting down") ++
          [ShutdownAction.closeHttpServer,
           ShutdownAction.armForceExit 10000 1]) := by
  refine ⟨rfl, rfl, ?_, ?_, rfl⟩
  · intro id hid
    simp only [gracefulShutdown, List.mem_cons, List.mem_append,
      List.mem_map]
    exact Or.inr (Or.inl ⟨id, hid, rfl⟩)
  · intro id code reason h
    simp only [gracefulShutdown, List.mem_cons, List.mem_append,
      List.mem_map] at h
    rcases h with h | h | h
    · exact absurd h (by simp)
    · obtain ⟨x, _, hx⟩ := h
      injection hx with h1 h2 h3
      refine ⟨h2.symm, ?_, h3.symm⟩
      omega
    · rcases h with h | h | h
      · exact absurd h (by simp)
      · exact absurd h (by simp)
      · exact absurd h (by simp)

/-- C8 witness: a SIGTERM with three registered clients closes client 2
with code 1001 and the shutdown reason. -/
theorem C8_graceful_shutdown_witness :
    ShutdownAction.closeClient 2 1001 "Server shutting down" ∈
      gracefulShutdown [1, 2, 3] :=
  (C8_graceful_shutdown ShutdownTrigger.SIGTERM [1, 2, 3]).2.2.1 2 (by decide)

end NodeLiveTranscription
